import Mathlib

/-!
Shallow embedding of the semantic video-transcript index of
`src/Youtube/server_3.py`: the FAISS-backed `VectorIndex` (`index`), the
parallel `MetadataStore` (`video_store`), and the tools `index_video`,
`semantic_search`, `fetch_and_index_transcript`, `bulk_index_channel_videos`,
`get_video_transcript` and `check_transcript_availability`.

Vectors are lists of rationals; the embedding model, the YouTube metadata
API and the captioning API are external collaborators, abstracted as an
explicit `Env` of functions.  The FAISS flat-L2 index and the
youtube-transcript-api library are third-party code not in this repository;
their behaviour is modelled from the spec (exact squared-L2 nearest
neighbour search, ties by insertion id; language matching on reported
caption tracks) as noted on each definition.
-/

/-- A stored embedding vector: a list of rationals. -/
abbrev Vec := List ℚ

/-- Squared L2 distance between two vectors (the metric of
`faiss.IndexFlatL2`). -/
def distSq (q v : Vec) : ℚ := (List.zipWith (fun a b => (a - b) ^ 2) q v).sum

/-- Python `round` to an integer: round half to even (banker's rounding). -/
def pyRoundInt (q : ℚ) : ℤ :=
  if q - ⌊q⌋ < 1 / 2 then ⌊q⌋
  else if 1 / 2 < q - ⌊q⌋ then ⌊q⌋ + 1
  else if ⌊q⌋ % 2 = 0 then ⌊q⌋ else ⌊q⌋ + 1

/-- Python `round(q, 2)`: round to two decimal places, half to even. -/
def pyRound2 (q : ℚ) : ℚ := (pyRoundInt (q * 100) : ℚ) / 100

/-- The similarity score of `semantic_search`:
`round((1 / (1 + D[0][i])) * 100, 2)`. -/
def similarity (d : ℚ) : ℚ := pyRound2 ((1 / (1 + d)) * 100)

/-- The spec's formulation of the scorer: `round(100 / (1 + distance), 2)`;
compared with `similarity` (taken from the code) in the C3 theorem. -/
def similaritySpec (d : ℚ) : ℚ := pyRound2 (100 / (1 + d))

/-- `pat.isPrefixOf l || ...` scan: does `pat` occur as a contiguous
sublist of `l`?  (Embedding of Python's `in` on strings.) -/
def charsContain (pat : List Char) : List Char → Bool
  | [] => pat.isEmpty
  | c :: rest => pat.isPrefixOf (c :: rest) || charsContain pat rest

/-- Python `pat in s` substring test. -/
def strContains (s pat : String) : Bool := charsContain pat.data s.data

/-- Python truthiness test for an optional string argument
(`if not video_id`). -/
def pyFalsy : Option String → Bool
  | none => true
  | some s => s == ""

/-- Errors raised by the captioning collaborator
(youtube-transcript-api).  Modelled from the spec: failure taxonomy
`TranscriptsDisabled` / `NoTranscriptFound` / `VideoUnavailable` /
unknown upstream error. -/
inductive ApiError where
  | transcriptsDisabled
  | noTranscriptFound
  | videoUnavailable
  | other (msg : String)
deriving DecidableEq

/-- Modelled from the spec: `str(e)` of a captioning-collaborator
exception; the three recognised classes stringify to their class name,
as tested by the substring classification in `get_video_transcript`. -/
def errString : ApiError → String
  | .transcriptsDisabled => "TranscriptsDisabled"
  | .noTranscriptFound => "NoTranscriptFound"
  | .videoUnavailable => "VideoUnavailable"
  | .other msg => msg

/-- One timed caption segment `{text, start, duration}`. -/
structure Segment where
  text : String
  start : ℚ
  duration : ℚ
deriving DecidableEq

/-- One caption track as reported by `list_transcripts`, together with
the outcome of fetching it (`transcript.fetch()` may itself fail). -/
structure Track where
  language : String
  language_code : String
  is_generated : Bool
  is_translatable : Bool
  fetchResult : Except ApiError (List Segment)

/-- The metadata the code reads from `get_video_details`. -/
structure VideoDetails where
  title : String
  url : String
deriving DecidableEq

/-- One discovery candidate from `get_latest_videos_from_channel`. -/
structure Candidate where
  video_id : String
  title : String
deriving DecidableEq

/-- External collaborators: the sentence-transformer encoder, the video
metadata API, the captioning API, and the discovery API. -/
structure Env where
  encode : String → Vec
  videoDetails : String → Except String VideoDetails
  listTranscripts : String → Except ApiError (List Track)
  latestVideos : String → ℕ → Except String (List Candidate)

/-- One record of the parallel metadata store `video_store`.
`index_video` stores no `"url"` key, read back as `None` by
`.get("url")`: modelled as `url = none`. -/
structure Record where
  title : String
  transcript : String
  video_id : Option String
  url : Option String
deriving DecidableEq

/-- The module-level mutable pair: the FAISS index's vectors (in
insertion order) and the metadata list `video_store`. -/
structure State where
  index : List Vec
  video_store : List Record
deriving DecidableEq

/-- `TextFormatter().format_transcript`: the segment texts joined by
newlines. -/
def formatTranscript (segs : List Segment) : String :=
  String.intercalate "\n" (segs.map (·.text))

/-- Result of `get_video_transcript`: an `{"error": ...}` dict or the
`{video_id, transcript, length, segments}` dict. -/
inductive TranscriptResult where
  | err (msg : String)
  | ok (video_id transcript : String) (length segments : ℕ)
deriving DecidableEq

/-- The `except` classifier at the end of `get_video_transcript`:
dispatch on substrings of `str(e)`. -/
def classifyTranscriptError (video_id : String) (e : ApiError) : TranscriptResult :=
  let error_msg := errString e
  if strContains error_msg "TranscriptsDisabled" then
    .err ("Transcripts are disabled for video " ++ video_id)
  else if strContains error_msg "NoTranscriptFound" then
    .err ("No transcript found for video " ++ video_id ++ " in requested languages")
  else if strContains error_msg "VideoUnavailable" then
    .err ("Video " ++ video_id ++ " is unavailable")
  else
    .err ("Failed to get transcript for " ++ video_id ++ ": " ++ error_msg)

/-- A manually created English track
(`find_manually_created_transcript(['en'])`). -/
def isManualEn (t : Track) : Bool := !t.is_generated && t.language_code == "en"

/-- An auto-generated English track (`find_generated_transcript(['en'])`). -/
def isGeneratedEn (t : Track) : Bool := t.is_generated && t.language_code == "en"

/-- One `try: ... find ... .fetch() except: ...` tier: succeeds only when a
matching track exists and its fetch succeeds; any failure falls through. -/
def tryTier (tracks : List Track) (sel : Track → Bool) : Option (List Segment) :=
  match tracks.find? sel with
  | some t =>
    match t.fetchResult with
    | .ok segs => some segs
    | .error _ => none
  | none => none

/-- Modelled from the spec: `YouTubeTranscriptApi.get_transcript(video_id,
languages=...)` (third-party): exactly the requested languages are
considered, the first collaborator-reported matching track wins, and with
no match it raises `NoTranscriptFound`. -/
def apiGetTranscript (env : Env) (video_id : String) (languages : List String) :
    Except ApiError (List Segment) :=
  match env.listTranscripts video_id with
  | .error e => .error e
  | .ok tracks =>
    match tracks.find? (fun t => languages.contains t.language_code) with
    | some t => t.fetchResult
    | none => .error .noTranscriptFound

/-- Success result shared by all transcript tiers. -/
def transcriptOk (video_id : String) (segs : List Segment) : TranscriptResult :=
  let transcript_text := formatTranscript segs
  .ok video_id transcript_text transcript_text.length segs.length

/-- `get_video_transcript(video_id, languages)`: tiered English fallback
when `languages` is omitted, exact-language fetch otherwise, with the
substring-based error classifier. -/
def get_video_transcript (env : Env) (video_id : Option String)
    (languages : Option (List String)) : TranscriptResult :=
  if pyFalsy video_id then
    .err "You must provide a video_id (e.g., 'rfscVS0vtbw')"
  else
    let vid := video_id.getD ""
    match languages with
    | none =>
      match env.listTranscripts vid with
      | .error e => classifyTranscriptError vid e
      | .ok tracks =>
        match tryTier tracks isManualEn with
        | some segs => transcriptOk vid segs
        | none =>
          match tryTier tracks isGeneratedEn with
          | some segs => transcriptOk vid segs
          | none =>
            match tracks with
            | [] => .err ("No transcripts available for video " ++ vid)
            | t :: _ =>
              match t.fetchResult with
              | .ok segs => transcriptOk vid segs
              | .error e => classifyTranscriptError vid e
    | some langs =>
      match apiGetTranscript env vid langs with
      | .ok segs => transcriptOk vid segs
      | .error e => classifyTranscriptError vid e

/-- Output of `index_video`: `{"status": "indexed", "title": title}`. -/
structure IndexOutput where
  status : String
  title : String
deriving DecidableEq

/-- `index_video(title, transcript, video_id)`: encode the transcript,
`index.add` the vector, append the metadata record (no `"url"` key). -/
def index_video (env : Env) (st : State) (title transcript : String)
    (video_id : Option String) : State × IndexOutput :=
  (⟨st.index ++ [env.encode transcript],
    st.video_store ++ [⟨title, transcript, video_id, none⟩]⟩,
   ⟨"indexed", title⟩)

/-- Neighbour ordering of the flat-L2 scan: strictly smaller distance, or
equal distance and smaller (earlier-inserted) id. -/
def nbrLe (a b : ℕ × ℚ) : Prop := a.2 < b.2 ∨ (a.2 = b.2 ∧ a.1 ≤ b.1)

instance : DecidableRel nbrLe := fun a b => by
  unfold nbrLe; infer_instance

instance : IsTotal (ℕ × ℚ) nbrLe := by
  constructor
  intro a b
  unfold nbrLe
  rcases lt_trichotomy a.2 b.2 with h | h | h
  · exact .inl (.inl h)
  · rcases Nat.le_total a.1 b.1 with h1 | h1
    · exact .inl (.inr ⟨h, h1⟩)
    · exact .inr (.inr ⟨h.symm, h1⟩)
  · exact .inr (.inl h)

instance : IsTrans (ℕ × ℚ) nbrLe := by
  constructor
  intro a b c hab hbc
  unfold nbrLe at *
  rcases hab with h1 | ⟨h1, h1'⟩ <;> rcases hbc with h2 | ⟨h2, h2'⟩
  · exact .inl (h1.trans h2)
  · exact .inl (h2 ▸ h1)
  · exact .inl (h1 ▸ h2)
  · exact .inr ⟨h1.trans h2, h1'.trans h2'⟩

/-- Modelled from the spec: `faiss.IndexFlatL2.search` — an exact linear
scan over the stored vectors computing squared-L2 distances, returning the
`k` nearest as (insertion id, distance) pairs, nearest first, ties broken
by lower id. -/
def faissSearch (vecs : List Vec) (q : Vec) (k : ℕ) : List (ℕ × ℚ) :=
  (List.insertionSort nbrLe
    ((List.range vecs.length).map (fun i => (i, distSq q (vecs.getD i []))))).take k

/-- One entry of a `semantic_search` result list. -/
structure SearchItem where
  title : String
  video_id : Option String
  url : Option String
  similarity_score : ℚ
  transcript : Option String
deriving DecidableEq

/-- Result of `semantic_search`: an `{"error": ...}` dict or a ranked list. -/
inductive SearchOut where
  | err (msg : String)
  | results (items : List SearchItem)
deriving DecidableEq

/-- The metadata join for one returned neighbour (the body of the
`if idx < len(video_store)` branch); `video_store[idx]` is read under that
bound, so the `getD` default is unreachable. -/
def mkItem (st : State) (return_full_transcript : Bool) (p : ℕ × ℚ) : SearchItem :=
  let r := st.video_store.getD p.1 ⟨"", "", none, none⟩
  { title := r.title
    video_id := r.video_id
    url := r.url
    similarity_score := similarity p.2
    transcript := if return_full_transcript then some r.transcript else none }

/-- `semantic_search(query, top_k, return_full_transcript)`: empty-store
guard, encode, search with `min(top_k, len(video_store))`, join each
neighbour whose index passes the `idx < len(video_store)` check. -/
def semantic_search (env : Env) (st : State) (query : String) (top_k : ℤ)
    (return_full_transcript : Bool) : SearchOut :=
  if st.video_store.length = 0 then
    .err "No videos indexed yet. Use index_video first."
  else
    let query_embedding := env.encode query
    let k : ℤ := min top_k (st.video_store.length : ℤ)
    let nbrs := faissSearch st.index query_embedding k.toNat
    .results (nbrs.filterMap (fun p =>
      if p.1 < st.video_store.length then
        some (mkItem st return_full_transcript p)
      else none))

/-- Result of `fetch_and_index_transcript`: an error dict or the
`{"status": "indexed", ...}` dict. -/
inductive FetchOut where
  | err (msg : String)
  | ok (status video_id title : String) (transcript_length segments : ℕ)
deriving DecidableEq

/-- `fetch_and_index_transcript(video_id, languages)`: metadata fetch,
transcript fetch, then the paired append to the FAISS index and
`video_store` (now including the `"url"` key); each failing step returns
its error before any mutation. -/
def fetch_and_index_transcript (env : Env) (st : State) (video_id : String)
    (languages : Option (List String)) : State × FetchOut :=
  match env.videoDetails video_id with
  | .error e => (st, .err e)
  | .ok video_details =>
    match get_video_transcript env (some video_id) languages with
    | .err e => (st, .err e)
    | .ok _ transcript_text _ segments =>
      (⟨st.index ++ [env.encode transcript_text],
        st.video_store ++
          [⟨video_details.title, transcript_text, some video_id, some video_details.url⟩]⟩,
       .ok "indexed" video_id video_details.title transcript_text.length segments)

/-- One `{language, language_code, is_generated, is_translatable}` entry of
`check_transcript_availability`. -/
structure TranscriptInfo where
  language : String
  language_code : String
  is_generated : Bool
  is_translatable : Bool
deriving DecidableEq

/-- Output dict of `check_transcript_availability`; fields absent from a
given return shape are `none`. -/
structure AvailOutput where
  video_id : Option String
  has_transcripts : Option Bool
  available_transcripts : Option (List TranscriptInfo)
  count : Option ℕ
  error : Option String
deriving DecidableEq

/-- `check_transcript_availability(video_id)`: list the caption tracks;
never raises — an upstream failure becomes `has_transcripts=False` with
the error message attached.  The state is passed through untouched. -/
def check_transcript_availability (env : Env) (video_id : Option String)
    (st : State) : State × AvailOutput :=
  (st,
   if pyFalsy video_id then
     ⟨none, none, none, none,
      some "You must provide a video_id to check transcript availability"⟩
   else
     let vid := video_id.getD ""
     match env.listTranscripts vid with
     | .ok tracks =>
       let available := tracks.map (fun t =>
         (⟨t.language, t.language_code, t.is_generated, t.is_translatable⟩ : TranscriptInfo))
       ⟨some vid, some (decide (0 < available.length)), some available,
        some available.length, none⟩
     | .error e =>
       ⟨some vid, some false, none, none, some (errString e)⟩)

/-- One entry of the bulk report's `details` list. -/
structure BulkDetail where
  video_id : String
  title : String
  status : String
  error : Option String
  transcript_length : Option ℕ
deriving DecidableEq

/-- Result of `bulk_index_channel_videos`: an error dict or the
`{"status": "completed", "indexed", "failed", "total_attempted", "details"}`
report. -/
inductive BulkOut where
  | err (msg : String)
  | report (status : String) (indexed failed total_attempted : ℕ)
      (details : List BulkDetail)
deriving DecidableEq

/-- The body of the `for video in videos` loop of
`bulk_index_channel_videos`, threading (state, indexed_count,
failed_count, results). -/
def bulkStep (env : Env) (acc : State × ℕ × ℕ × List BulkDetail)
    (video : Candidate) : State × ℕ × ℕ × List BulkDetail :=
  let st := acc.1
  let indexed_count := acc.2.1
  let failed_count := acc.2.2.1
  let results := acc.2.2.2
  let availability := (check_transcript_availability env (some video.video_id) st).2
  if availability.has_transcripts.getD false then
    match fetch_and_index_transcript env st video.video_id none with
    | (st', .err e) =>
      (st', indexed_count, failed_count + 1,
       results ++ [⟨video.video_id, video.title, "failed", some e, none⟩])
    | (st', .ok _ _ _ transcript_length _) =>
      (st', indexed_count + 1, failed_count,
       results ++ [⟨video.video_id, video.title, "indexed", none, some transcript_length⟩])
  else
    (st, indexed_count, failed_count + 1,
     results ++ [⟨video.video_id, video.title, "no_transcript",
                  some "No transcripts available", none⟩])

/-- `bulk_index_channel_videos(channel_id, max_videos)`: discovery, then
the per-candidate loop; one candidate's failure never aborts the batch. -/
def bulk_index_channel_videos (env : Env) (st : State) (channel_id : String)
    (max_videos : ℕ) : State × BulkOut :=
  match env.latestVideos channel_id max_videos with
  | .error e => (st, .err e)
  | .ok videos =>
    let r := videos.foldl (bulkStep env) (st, 0, 0, [])
    (r.1, .report "completed" r.2.1 r.2.2.1 videos.length r.2.2.2)

/-- States of the index/store pair reachable from the empty start by the
state-changing tools. -/
inductive Reachable (env : Env) : State → Prop where
  | init : Reachable env ⟨[], []⟩
  | index_step (st : State) (t tr : String) (vid : Option String) :
      Reachable env st → Reachable env (index_video env st t tr vid).1
  | fetch_step (st : State) (vid : String) (langs : Option (List String)) :
      Reachable env st → Reachable env (fetch_and_index_transcript env st vid langs).1
  | bulk_step (st : State) (ch : String) (mx : ℕ) :
      Reachable env st → Reachable env (bulk_index_channel_videos env st ch mx).1

/-- The core invariant: the FAISS index and the metadata store have equal
length, and record `i`'s vector — the encoding of its stored transcript —
sits at position `i`. -/
def Aligned (env : Env) (st : State) : Prop :=
  st.index.length = st.video_store.length ∧
  ∀ i (h : i < st.index.length) (h' : i < st.video_store.length),
    st.index.get ⟨i, h⟩ = env.encode (st.video_store.get ⟨i, h'⟩).transcript

/-- A small deterministic test environment used to instantiate proved
theorems at concrete inputs. -/
def testEnv : Env where
  encode := fun s => [(s.length : ℚ)]
  videoDetails := fun v => .ok ⟨"Title " ++ v, "https://www.youtube.com/watch?v=" ++ v⟩
  listTranscripts := fun _ => .ok [⟨"English", "en", false, true, .ok [⟨"hello", 0, 1⟩]⟩]
  latestVideos := fun _ _ => .ok []

/-- Concrete discovery scenario `[A(has transcript), B(no transcript),
C(fetch fails)]` for the bulk-report claim. -/
def exEnv : Env where
  encode := fun s => [(s.length : ℚ)]
  videoDetails := fun v => .ok ⟨"Video " ++ v, "https://www.youtube.com/watch?v=" ++ v⟩
  listTranscripts := fun v =>
    if v == "A" then .ok [⟨"English", "en", false, true, .ok [⟨"hello", 0, 1⟩]⟩]
    else if v == "B" then .ok []
    else .ok [⟨"English", "en", false, true, .error (.other "boom")⟩]
  latestVideos := fun _ _ => .ok [⟨"A", "Video A"⟩, ⟨"B", "Video B"⟩, ⟨"C", "Video C"⟩]

/-- An environment whose collaborators all fail, to instantiate
error-path theorems. -/
def downEnv : Env where
  encode := fun _ => [0]
  videoDetails := fun _ => .error "Video not found"
  listTranscripts := fun _ => .error (.other "HTTP Error 429")
  latestVideos := fun _ _ => .error "quota exceeded"

/-- A one-record state obtained by a single `index_video` call, used to
instantiate theorems about non-empty states. -/
def oneRecordState : State := (index_video testEnv ⟨[], []⟩ "T" "hi" none).1

theorem distSq_self (v : Vec) : distSq v v = 0 := by
  induction v with
  | nil => rfl
  | cons a l ih =>
    unfold distSq at *
    simp [List.zipWith, ih]

theorem aligned_empty (env : Env) : Aligned env ⟨[], []⟩ := by
  constructor
  · rfl
  · intro i h h'
    simp at h

theorem aligned_append (env : Env) (st : State) (h : Aligned env st) (r : Record) :
    Aligned env ⟨st.index ++ [env.encode r.transcript], st.video_store ++ [r]⟩ := by
  obtain ⟨hlen, hget⟩ := h
  constructor
  · simp [hlen]
  · intro i hi hi'
    simp only [List.length_append, List.length_singleton] at hi hi'
    rw [List.get_eq_getElem, List.get_eq_getElem]
    by_cases hlt : i < st.index.length
    · have hlt' : i < st.video_store.length := hlen ▸ hlt
      rw [List.getElem_append_left hlt, List.getElem_append_left hlt']
      have := hget i hlt hlt'
      rw [List.get_eq_getElem, List.get_eq_getElem] at this
      exact this
    · have h1 : i = st.index.length := by omega
      have h2 : i = st.video_store.length := by omega
      rw [List.getElem_concat_length _ _ _ h1, List.getElem_concat_length _ _ _ h2]

theorem fetch_state_cases (env : Env) (st : State) (vid : String)
    (langs : Option (List String)) :
    (fetch_and_index_transcript env st vid langs).1 = st ∨
    ∃ details text,
      env.videoDetails vid = .ok details ∧
      (fetch_and_index_transcript env st vid langs).1 =
        ⟨st.index ++ [env.encode text],
         st.video_store ++ [⟨details.title, text, some vid, some details.url⟩]⟩ := by
  unfold fetch_and_index_transcript
  cases h1 : env.videoDetails vid with
  | error e => exact .inl rfl
  | ok d =>
    cases h2 : get_video_transcript env (some vid) langs with
    | err e => exact .inl rfl
    | ok v text len segs => exact .inr ⟨d, text, rfl, rfl⟩

theorem aligned_fetch (env : Env) (st : State) (vid : String)
    (langs : Option (List String)) (h : Aligned env st) :
    Aligned env (fetch_and_index_transcript env st vid langs).1 := by
  rcases fetch_state_cases env st vid langs with heq | ⟨d, text, _, heq⟩
  · rw [heq]; exact h
  · rw [heq]; exact aligned_append env st h ⟨d.title, text, some vid, some d.url⟩

theorem bulkStep_state_cases (env : Env) (acc : State × ℕ × ℕ × List BulkDetail)
    (video : Candidate) :
    (bulkStep env acc video).1 = acc.1 ∨
    (bulkStep env acc video).1 =
      (fetch_and_index_transcript env acc.1 video.video_id none).1 := by
  unfold bulkStep
  by_cases hav : ((check_transcript_availability env (some video.video_id) acc.1).2.has_transcripts.getD false) = true
  · rw [if_pos hav]
    split
    · rename_i st' e heq
      right
      rw [heq]
    · rename_i st' s v t tl sg heq
      right
      rw [heq]
  · rw [if_neg hav]
    exact .inl rfl

theorem aligned_bulk_fold (env : Env) (videos : List Candidate) :
    ∀ acc : State × ℕ × ℕ × List BulkDetail, Aligned env acc.1 →
      Aligned env (videos.foldl (bulkStep env) acc).1 := by
  induction videos with
  | nil => intro acc h; exact h
  | cons v vs ih =>
    intro acc h
    rw [List.foldl_cons]
    apply ih
    rcases bulkStep_state_cases env acc v with heq | heq
    · rw [heq]; exact h
    · rw [heq]; exact aligned_fetch env acc.1 v.video_id none h

theorem aligned_bulk (env : Env) (st : State) (ch : String) (mx : ℕ)
    (h : Aligned env st) :
    Aligned env (bulk_index_channel_videos env st ch mx).1 := by
  unfold bulk_index_channel_videos
  cases h1 : env.latestVideos ch mx with
  | error e => exact h
  | ok videos => exact aligned_bulk_fold env videos (st, 0, 0, []) h

theorem pyRoundInt_le (q : ℚ) : pyRoundInt q ≤ ⌊q⌋ + 1 := by
  unfold pyRoundInt
  split_ifs <;> omega

theorem le_pyRoundInt (q : ℚ) : ⌊q⌋ ≤ pyRoundInt q := by
  unfold pyRoundInt
  split_ifs <;> omega

theorem pyRoundInt_mono {a b : ℚ} (h : a ≤ b) : pyRoundInt a ≤ pyRoundInt b := by
  have hf : ⌊a⌋ ≤ ⌊b⌋ := Int.floor_mono h
  rcases lt_or_eq_of_le hf with hlt | heq
  · have h1 := pyRoundInt_le a
    have h2 := le_pyRoundInt b
    omega
  · unfold pyRoundInt
    rw [heq]
    split_ifs with h1 h2 h3 h4 h5 h6 h7 h8 <;>
      first
        | omega
        | (exfalso; rw [heq] at *; linarith)

theorem pyRound2_mono {a b : ℚ} (h : a ≤ b) : pyRound2 a ≤ pyRound2 b := by
  unfold pyRound2
  have h1 : pyRoundInt (a * 100) ≤ pyRoundInt (b * 100) :=
    pyRoundInt_mono (by linarith)
  have h2 : (pyRoundInt (a * 100) : ℚ) ≤ (pyRoundInt (b * 100) : ℚ) := by
    exact_mod_cast h1
  linarith

theorem similarity_eq_spec (d : ℚ) : similarity d = similaritySpec d := by
  unfold similarity similaritySpec
  congr 1
  ring

theorem similarity_zero : similarity 0 = 100 := by
  unfold similarity pyRound2 pyRoundInt
  norm_num

theorem similarity_antitone {d1 d2 : ℚ} (h0 : 0 ≤ d1) (h : d1 ≤ d2) :
    similarity d2 ≤ similarity d1 := by
  unfold similarity
  apply pyRound2_mono
  have ha : (0 : ℚ) < 1 + d1 := by linarith
  have hb : (1 : ℚ) + d1 ≤ 1 + d2 := by linarith
  have := one_div_le_one_div_of_le ha hb
  nlinarith

/-- C8: `semantic_search` on an empty index (zero stored records) returns
the structured "not indexed yet" error signal, which is distinguishable by
constructor from an empty ranked list; it never returns `.results` (in
particular not `.results []`) in that state. -/
theorem semantic_search_empty_signal (env : Env) (st : State) (q : String)
    (k : ℤ) (rft : Bool) (h : st.video_store.length = 0) :
    semantic_search env st q k rft =
      .err "No videos indexed yet. Use index_video first." ∧
    ∀ items : List SearchItem, semantic_search env st q k rft ≠ .results items := by
  have he : semantic_search env st q k rft =
      .err "No videos indexed yet. Use index_video first." := by
    unfold semantic_search
    rw [if_pos h]
  refine ⟨he, fun items hc => ?_⟩
  rw [he] at hc
  exact SearchOut.noConfusion hc

/-- Witness for C8 at the empty state. -/
theorem semantic_search_empty_signal_witness :
    semantic_search testEnv ⟨[], []⟩ "query" 3 false =
      .err "No videos indexed yet. Use index_video first." ∧
    ∀ items : List SearchItem,
      semantic_search testEnv ⟨[], []⟩ "query" 3 false ≠ .results items :=
  semantic_search_empty_signal testEnv ⟨[], []⟩ "query" 3 false rfl

/-- C9: `check_transcript_availability` is total (never raises: every
upstream failure is returned as a structured value), leaves the
index/store state exactly unchanged, and on an upstream failure returns
`has_transcripts = false` with the error message attached. -/
theorem check_availability_frame (env : Env) (vid : Option String) (st : State) :
    (check_transcript_availability env vid st).1 = st ∧
    (∀ v e, vid = some v → pyFalsy vid = false →
      env.listTranscripts v = .error e →
      (check_transcript_availability env vid st).2 =
        ⟨some v, some false, none, none, some (errString e)⟩) := by
  constructor
  · rfl
  · intro v e hv hf hl
    subst hv
    unfold check_transcript_availability
    simp only [hf, Bool.false_eq_true, if_false, Option.getD_some, hl]

/-- Witness for C9: a failing captioning collaborator. -/
theorem check_availability_frame_witness :
    (check_transcript_availability downEnv (some "x") ⟨[], []⟩).1 = ⟨[], []⟩ ∧
    (check_transcript_availability downEnv (some "x") ⟨[], []⟩).2 =
      ⟨some "x", some false, none, none, some "HTTP Error 429"⟩ :=
  ⟨(check_availability_frame downEnv (some "x") ⟨[], []⟩).1,
   (check_availability_frame downEnv (some "x") ⟨[], []⟩).2 "x"
     (.other "HTTP Error 429") rfl rfl rfl⟩

theorem fetch_parts (env : Env) (st : State) (vid : String)
    (langs : Option (List String)) :
    (∀ e, (fetch_and_index_transcript env st vid langs).2 = .err e →
      (fetch_and_index_transcript env st vid langs).1 = st) ∧
    (∀ s v ttl tl sg,
      (fetch_and_index_transcript env st vid langs).2 = .ok s v ttl tl sg →
      s = "indexed" ∧
      ∃ details v0 text len,
        env.videoDetails vid = .ok details ∧
        get_video_transcript env (some vid) langs = .ok v0 text len sg ∧
        ttl = details.title ∧ tl = text.length ∧
        (fetch_and_index_transcript env st vid langs).1 =
          ⟨st.index ++ [env.encode text],
           st.video_store ++ [⟨details.title, text, some vid, some details.url⟩]⟩) := by
  unfold fetch_and_index_transcript
  cases h1 : env.videoDetails vid with
  | error e =>
    refine ⟨fun e' h => rfl, fun s v ttl tl sg h => ?_⟩
    exact FetchOut.noConfusion h
  | ok d =>
    cases h2 : get_video_transcript env (some vid) langs with
    | err e =>
      refine ⟨fun e' h => rfl, fun s v ttl tl sg h => ?_⟩
      exact FetchOut.noConfusion h
    | ok v0 text len segs =>
      refine ⟨fun e' h => FetchOut.noConfusion h, fun s v ttl tl sg h => ?_⟩
      injection h with h1' h2' h3' h4' h5'
      subst h1'; subst h2'; subst h3'; subst h4'; subst h5'
      exact ⟨rfl, d, v0, text, len, rfl, rfl, rfl, rfl, rfl⟩

/-- C5: `fetch_and_index_transcript` short-circuits on each failing step
(metadata fetch, transcript resolution) with no partial mutation: on any
error result the index/store pair is exactly the pre-call state; on
success it returns status `"indexed"` with the video's title and the
transcript length, having appended to both structures in lockstep. -/
theorem fetch_short_circuit (env : Env) (st : State) (vid : String)
    (langs : Option (List String)) :
    (∀ e, (fetch_and_index_transcript env st vid langs).2 = .err e →
      (fetch_and_index_transcript env st vid langs).1 = st) ∧
    (∀ s v ttl tl sg,
      (fetch_and_index_transcript env st vid langs).2 = .ok s v ttl tl sg →
      s = "indexed" ∧
      ∃ details v0 text len,
        env.videoDetails vid = .ok details ∧
        get_video_transcript env (some vid) langs = .ok v0 text len sg ∧
        ttl = details.title ∧ tl = text.length ∧
        (fetch_and_index_transcript env st vid langs).1 =
          ⟨st.index ++ [env.encode text],
           st.video_store ++ [⟨details.title, text, some vid, some details.url⟩]⟩) :=
  fetch_parts env st vid langs

/-- Witness for C5: a successful end-to-end ingestion in `testEnv`. -/
theorem fetch_short_circuit_witness :
    "indexed" = "indexed" ∧
    ∃ details v0 text len,
      testEnv.videoDetails "abc" = .ok details ∧
      get_video_transcript testEnv (some "abc") none = .ok v0 text len 1 ∧
      "Title abc" = details.title ∧ 5 = text.length ∧
      (fetch_and_index_transcript testEnv ⟨[], []⟩ "abc" none).1 =
        ⟨[].append [testEnv.encode text],
         [].append [⟨details.title, text, some "abc", some details.url⟩]⟩ :=
  (fetch_short_circuit testEnv ⟨[], []⟩ "abc" none).2 "indexed" "abc" "Title abc" 5 1
    (by decide)

/-- C1: every reachable state of the index/store pair is aligned — equal
lengths with record `i`'s vector at position `i` — and both append
operations extend the pair at the end, so the id (position) of each new
record equals the 0-based append order, strictly in call order and
independent of the vector's content. -/
theorem index_pair_invariant (env : Env) :
    (∀ st, Reachable env st → Aligned env st) ∧
    (∀ st t tr vid,
      (index_video env st t tr vid).1.index = st.index ++ [env.encode tr] ∧
      (index_video env st t tr vid).1.video_store =
        st.video_store ++ [⟨t, tr, vid, none⟩]) ∧
    (∀ st vid langs s v ttl tl sg,
      (fetch_and_index_transcript env st vid langs).2 = .ok s v ttl tl sg →
      ∃ details text,
        env.videoDetails vid = .ok details ∧
        (fetch_and_index_transcript env st vid langs).1.index =
          st.index ++ [env.encode text] ∧
        (fetch_and_index_transcript env st vid langs).1.video_store =
          st.video_store ++ [⟨details.title, text, some vid, some details.url⟩]) := by
  refine ⟨?_, fun st t tr vid => ⟨rfl, rfl⟩, ?_⟩
  · intro st h
    induction h with
    | init => exact aligned_empty env
    | index_step st t tr vid _ ih =>
      exact aligned_append env st ih ⟨t, tr, vid, none⟩
    | fetch_step st vid langs _ ih => exact aligned_fetch env st vid langs ih
    | bulk_step st ch mx _ ih => exact aligned_bulk env st ch mx ih
  · intro st vid langs s v ttl tl sg h
    obtain ⟨-, d, v0, text, len, hd, -, -, -, hst⟩ :=
      (fetch_parts env st vid langs).2 s v ttl tl sg h
    exact ⟨d, text, hd, by rw [hst], by rw [hst]⟩

/-- Witness for C1: the state after one `index_video` append is reachable
and aligned. -/
theorem index_pair_invariant_witness :
    Aligned testEnv (index_video testEnv ⟨[], []⟩ "T" "hello" none).1 :=
  (index_pair_invariant testEnv).1 _
    (.index_step ⟨[], []⟩ "T" "hello" none .init)

theorem faissSearch_length (vecs : List Vec) (q : Vec) (k : ℕ) :
    (faissSearch vecs q k).length = min k vecs.length := by
  unfold faissSearch
  rw [List.length_take, (List.perm_insertionSort nbrLe _).length_eq,
    List.length_map, List.length_range]

theorem faissSearch_sorted (vecs : List Vec) (q : Vec) (k : ℕ) :
    List.Sorted nbrLe (faissSearch vecs q k) :=
  List.Pairwise.sublist (List.take_sublist _ _)
    (List.sorted_insertionSort nbrLe _)

theorem faissSearch_mem_lt (vecs : List Vec) (q : Vec) (k : ℕ)
    (p : ℕ × ℚ) (hp : p ∈ faissSearch vecs q k) : p.1 < vecs.length := by
  unfold faissSearch at hp
  have h1 := List.mem_of_mem_take hp
  have h2 := (List.perm_insertionSort nbrLe _).subset h1
  obtain ⟨i, hi, hip⟩ := List.mem_map.mp h2
  rw [← hip]
  exact List.mem_range.mp hi

theorem faissSearch_fst_nodup (vecs : List Vec) (q : Vec) (k : ℕ) :
    ((faissSearch vecs q k).map Prod.fst).Nodup := by
  unfold faissSearch
  rw [List.map_take]
  apply List.Sublist.nodup (List.take_sublist _ _)
  have hperm :
      ((List.insertionSort nbrLe
        (List.map (fun i => (i, distSq q (vecs.getD i []))) (List.range vecs.length))).map
          Prod.fst).Perm
      ((List.map (fun i => (i, distSq q (vecs.getD i []))) (List.range vecs.length)).map
          Prod.fst) :=
    (List.perm_insertionSort nbrLe _).map Prod.fst
  apply hperm.symm.nodup
  rw [List.map_map]
  have hid : (Prod.fst ∘ fun i => (i, distSq q (vecs.getD i []))) = id := rfl
  rw [hid, List.map_id]
  exact List.nodup_range vecs.length

theorem filterMap_if_eq_map {α β : Type} (P : α → Prop) [DecidablePred P]
    (f : α → β) (l : List α) (h : ∀ a ∈ l, P a) :
    (l.filterMap (fun a => if P a then some (f a) else none)) = l.map f := by
  induction l with
  | nil => rfl
  | cons a l ih =>
    rw [List.filterMap_cons, List.map_cons, if_pos (h a (by simp))]
    rw [ih (fun b hb => h b (by simp [hb]))]

/-- C2: on a non-empty aligned index of size `n`, `semantic_search` with
any integer `top_k = k` returns exactly `(min k n).toNat` results — the
metadata join of the neighbour list — ordered by non-decreasing distance
with ties broken by lower (earlier-inserted) id, with no id repeated;
`k ≤ 0` yields no results and `0 < k` yields `min k n` results. -/
theorem search_count_and_order (env : Env) (st : State) (q : String)
    (rft : Bool) (k : ℤ) (hal : st.index.length = st.video_store.length)
    (hne : 0 < st.video_store.length) :
    semantic_search env st q k rft =
      .results ((faissSearch st.index (env.encode q)
          (min k (st.video_store.length : ℤ)).toNat).map (mkItem st rft)) ∧
    (faissSearch st.index (env.encode q)
        (min k (st.video_store.length : ℤ)).toNat).length =
      (min k (st.video_store.length : ℤ)).toNat ∧
    (k ≤ 0 → faissSearch st.index (env.encode q)
        (min k (st.video_store.length : ℤ)).toNat = []) ∧
    (0 < k → (faissSearch st.index (env.encode q)
        (min k (st.video_store.length : ℤ)).toNat).length =
      min k.toNat st.video_store.length) ∧
    List.Sorted nbrLe (faissSearch st.index (env.encode q)
        (min k (st.video_store.length : ℤ)).toNat) ∧
    ((faissSearch st.index (env.encode q)
        (min k (st.video_store.length : ℤ)).toNat).map Prod.fst).Nodup := by
  have hlen := faissSearch_length st.index (env.encode q)
    (min k (st.video_store.length : ℤ)).toNat
  have hne' : ¬ st.video_store.length = 0 := by omega
  refine ⟨?_, ?_, ?_, ?_, faissSearch_sorted _ _ _, faissSearch_fst_nodup _ _ _⟩
  · simp only [semantic_search, if_neg hne']
    congr 1
    exact filterMap_if_eq_map _ _ _
      (fun p hp => by have := faissSearch_mem_lt _ _ _ p hp; omega)
  · rw [hlen]; omega
  · intro hk
    have h0 : (min k (st.video_store.length : ℤ)).toNat = 0 := by omega
    rw [h0]
    simp [faissSearch]
  · intro hk
    rw [hlen]; omega

/-- Witness for C2 on a concrete one-record state. -/
theorem search_count_and_order_witness :
    semantic_search testEnv oneRecordState "q" 3 false =
      .results ((faissSearch oneRecordState.index (testEnv.encode "q")
          (min 3 (oneRecordState.video_store.length : ℤ)).toNat).map
        (mkItem oneRecordState false)) ∧
    (faissSearch oneRecordState.index (testEnv.encode "q")
        (min 3 (oneRecordState.video_store.length : ℤ)).toNat).length =
      (min 3 (oneRecordState.video_store.length : ℤ)).toNat :=
  ⟨(search_count_and_order testEnv oneRecordState "q" false 3 rfl
      (by decide)).1,
   (search_count_and_order testEnv oneRecordState "q" false 3 rfl
      (by decide)).2.1⟩

/-- C10: the metadata join of `semantic_search` is total — every returned
item's fields are read from a record at an index checked against the store
length, with `url` read by a total optional lookup; `index_video` appends
its record with `url = none` while `fetch_and_index_transcript` appends
its record with the fetched `url`, so searches hitting either kind of
record succeed, yielding `url = none` for the former. -/
theorem search_join_total (env : Env) (st : State) (q : String) (k : ℤ)
    (rft : Bool) :
    (∀ items, semantic_search env st q k rft = .results items →
      ∀ item ∈ items, ∃ i, ∃ d : ℚ, ∃ hi : i < st.video_store.length,
        item.title = (st.video_store.get ⟨i, hi⟩).title ∧
        item.video_id = (st.video_store.get ⟨i, hi⟩).video_id ∧
        item.url = (st.video_store.get ⟨i, hi⟩).url ∧
        item.similarity_score = similarity d) ∧
    (∀ t tr vid,
      (index_video env st t tr vid).1.video_store.getLast? =
        some ⟨t, tr, vid, none⟩) ∧
    (∀ vid langs s v ttl tl sg,
      (fetch_and_index_transcript env st vid langs).2 = .ok s v ttl tl sg →
      ∃ details text,
        env.videoDetails vid = .ok details ∧
        (fetch_and_index_transcript env st vid langs).1.video_store.getLast? =
          some ⟨details.title, text, some vid, some details.url⟩) := by
  refine ⟨?_, fun t tr vid => List.getLast?_concat _, ?_⟩
  · intro items hres item hitem
    unfold semantic_search at hres
    by_cases h0 : st.video_store.length = 0
    · rw [if_pos h0] at hres
      exact SearchOut.noConfusion hres
    · rw [if_neg h0] at hres
      injection hres with hres
      rw [← hres] at hitem
      obtain ⟨p, hp, hsome⟩ := List.mem_filterMap.mp hitem
      by_cases hlt : p.1 < st.video_store.length
      · rw [if_pos hlt] at hsome
        injection hsome with hsome
        refine ⟨p.1, p.2, hlt, ?_⟩
        rw [← hsome]
        unfold mkItem
        rw [List.get_eq_getElem, List.getD_eq_getElem _ _ hlt]
        exact ⟨rfl, rfl, rfl, rfl⟩
      · rw [if_neg hlt] at hsome
        exact Option.noConfusion hsome
  · intro vid langs s v ttl tl sg h
    obtain ⟨-, d, v0, text, len, hd, -, -, -, hst⟩ :=
      (fetch_parts env st vid langs).2 s v ttl tl sg h
    refine ⟨d, text, hd, ?_⟩
    rw [hst]
    exact List.getLast?_concat _

/-- Witness for C10: a search over a state holding one `index_video`
record (no url) and one fetched record (with url). -/
theorem search_join_total_witness :
    (index_video testEnv ⟨[], []⟩ "T" "hi" none).1.video_store.getLast? =
      some ⟨"T", "hi", none, none⟩ :=
  (search_join_total testEnv ⟨[], []⟩ "q" 3 false).2.1 "T" "hi" none

theorem classify_noTranscriptFound (vid : String) :
    classifyTranscriptError vid .noTranscriptFound =
      .err ("No transcript found for video " ++ vid ++ " in requested languages") := by
  simp only [classifyTranscriptError, errString]
  rw [if_neg (by decide), if_pos (by decide)]

/-- C6: with an explicit language list, transcript resolution considers
exactly the requested languages: if no reported track's language code is
requested, `get_video_transcript` returns the `NoTranscriptFound` error
(never a transcript of another language, even an available "en" track);
if some track matches, the first collaborator-reported match wins. -/
theorem explicit_languages_no_fallback (env : Env) (vid : String)
    (hvid : vid ≠ "") (langs : List String) (tracks : List Track)
    (hls : env.listTranscripts vid = .ok tracks) :
    ((∀ t ∈ tracks, t.language_code ∉ langs) →
      get_video_transcript env (some vid) (some langs) =
        .err ("No transcript found for video " ++ vid ++
          " in requested languages")) ∧
    (∀ t, tracks.find? (fun tr => langs.contains tr.language_code) = some t →
      ∀ segs, t.fetchResult = .ok segs →
        get_video_transcript env (some vid) (some langs) =
          transcriptOk vid segs) := by
  have hfal : pyFalsy (some vid) = false := by
    simp [pyFalsy, hvid]
  constructor
  · intro hnone
    have hfind : tracks.find? (fun tr => langs.contains tr.language_code) = none := by
      rw [List.find?_eq_none]
      intro t ht
      simpa using hnone t ht
    simp only [get_video_transcript, hfal, Bool.false_eq_true, if_false,
      Option.getD_some, apiGetTranscript, hls, hfind]
    exact classify_noTranscriptFound vid
  · intro t hfind segs hsegs
    simp only [get_video_transcript, hfal, Bool.false_eq_true, if_false,
      Option.getD_some, apiGetTranscript, hls, hfind, hsegs]

/-- Witness for C6: a video with only an "en" track, requested with
`languages=["fr"]`. -/
theorem explicit_languages_no_fallback_witness :
    get_video_transcript testEnv (some "abc") (some ["fr"]) =
      .err ("No transcript found for video " ++ "abc" ++
        " in requested languages") :=
  (explicit_languages_no_fallback testEnv "abc" (by decide) ["fr"]
      [⟨"English", "en", false, true, .ok [⟨"hello", 0, 1⟩]⟩] rfl).1
    (by decide)

/-- C7: with the language list omitted, transcript resolution tries, in
order: (a) a manually-created "en" track, else (b) an auto-generated "en"
track, else (c) the first collaborator-reported track with no language
constraint; and with no tracks at all it returns the no-transcripts error
rather than a transcript. -/
theorem omitted_languages_tiered_fallback (env : Env) (vid : String)
    (hvid : vid ≠ "") (tracks : List Track)
    (hls : env.listTranscripts vid = .ok tracks) :
    (∀ segs, tryTier tracks isManualEn = some segs →
      get_video_transcript env (some vid) none = transcriptOk vid segs) ∧
    (tryTier tracks isManualEn = none →
      ∀ segs, tryTier tracks isGeneratedEn = some segs →
        get_video_transcript env (some vid) none = transcriptOk vid segs) ∧
    (tryTier tracks isManualEn = none →
      tryTier tracks isGeneratedEn = none →
      ∀ t0 rest, tracks = t0 :: rest →
        ∀ segs, t0.fetchResult = .ok segs →
          get_video_transcript env (some vid) none = transcriptOk vid segs) ∧
    (tracks = [] →
      get_video_transcript env (some vid) none =
        .err ("No transcripts available for video " ++ vid)) := by
  have hfal : pyFalsy (some vid) = false := by
    simp [pyFalsy, hvid]
  refine ⟨?_, ?_, ?_, ?_⟩
  · intro segs h1
    simp only [get_video_transcript, hfal, Bool.false_eq_true, if_false,
      Option.getD_some, hls, h1]
  · intro h1 segs h2
    simp only [get_video_transcript, hfal, Bool.false_eq_true, if_false,
      Option.getD_some, hls, h1, h2]
  · intro h1 h2 t0 rest htr segs hfr
    subst htr
    simp only [get_video_transcript, hfal, Bool.false_eq_true, if_false,
      Option.getD_some, hls, h1, h2, hfr]
  · intro htr
    simp only [get_video_transcript, hfal, Bool.false_eq_true, if_false,
      Option.getD_some, hls, htr]
    rfl

/-- Witness for C7: tier (a) succeeds on `testEnv`'s manual "en" track. -/
theorem omitted_languages_tiered_fallback_witness :
    get_video_transcript testEnv (some "abc") none =
      transcriptOk "abc" [⟨"hello", 0, 1⟩] :=
  (omitted_languages_tiered_fallback testEnv "abc" (by decide)
      [⟨"English", "en", false, true, .ok [⟨"hello", 0, 1⟩]⟩] rfl).1
    [⟨"hello", 0, 1⟩] (by decide)

theorem index_then_search (env : Env) (title t : String) (vid : Option String)
    (rft : Bool) :
    semantic_search env (index_video env ⟨[], []⟩ title t vid).1 t 3 rft =
      .results [⟨title, vid, none, 100, if rft then some t else none⟩] := by
  have hd := distSq_self (env.encode t)
  simp [semantic_search, index_video, faissSearch, mkItem, hd, similarity_zero,
    List.range_succ]

/-- C3: the similarity scorer is `round(100 / (1 + distance), 2)` (equal
to the code's `round((1 / (1 + d)) * 100, 2)`), weakly decreasing in the
distance and equal to 100 at distance 0; with any deterministic encoder,
`index_video(title, t)` from the empty state followed by
`semantic_search(t)` returns the single top result with that title and
similarity score 100. -/
theorem scorer_and_self_search (env : Env) (title t : String)
    (vid : Option String) (rft : Bool) :
    (∀ d : ℚ, similarity d = similaritySpec d) ∧
    (∀ d1 d2 : ℚ, 0 ≤ d1 → d1 ≤ d2 → similarity d2 ≤ similarity d1) ∧
    similarity 0 = 100 ∧
    semantic_search env (index_video env ⟨[], []⟩ title t vid).1 t 3 rft =
      .results [⟨title, vid, none, 100, if rft then some t else none⟩] :=
  ⟨similarity_eq_spec, fun _ _ h0 h => similarity_antitone h0 h,
   similarity_zero, index_then_search env title t vid rft⟩

/-- Witness for C3: the spec's stub-encoder test at concrete inputs,
plus the monotonicity conjunct at distances 0 and 1. -/
theorem scorer_and_self_search_witness :
    similarity 1 ≤ similarity 0 ∧
    semantic_search testEnv
        (index_video testEnv ⟨[], []⟩ "T" "hello world" none).1
        "hello world" 3 false =
      .results [⟨"T", none, none, 100, none⟩] :=
  ⟨(scorer_and_self_search testEnv "T" "hello world" none false).2.1 0 1
      (by norm_num) (by norm_num),
   (scorer_and_self_search testEnv "T" "hello world" none false).2.2.2⟩

theorem bulkStep_parts (env : Env) (acc : State × ℕ × ℕ × List BulkDetail)
    (video : Candidate) :
    ∃ st' d,
      bulkStep env acc video =
        (st', acc.2.1 + (if d.status == "indexed" then 1 else 0),
         acc.2.2.1 + (if d.status == "failed" || d.status == "no_transcript" then 1 else 0),
         acc.2.2.2 ++ [d]) ∧
      d.video_id = video.video_id ∧ d.title = video.title ∧
      (d.status = "indexed" ∨ d.status = "failed" ∨ d.status = "no_transcript") := by
  unfold bulkStep
  by_cases hav : ((check_transcript_availability env (some video.video_id) acc.1).2.has_transcripts.getD false) = true
  · rw [if_pos hav]
    split
    · rename_i st' e heq
      refine ⟨st', ⟨video.video_id, video.title, "failed", some e, none⟩, ?_,
        rfl, rfl, .inr (.inl rfl)⟩
      simp
    · rename_i st' s v t0 tl sg heq
      refine ⟨st', ⟨video.video_id, video.title, "indexed", none, some tl⟩, ?_,
        rfl, rfl, .inl rfl⟩
      simp
  · rw [if_neg hav]
    refine ⟨acc.1, ⟨video.video_id, video.title, "no_transcript",
      some "No transcripts available", none⟩, ?_, rfl, rfl, .inr (.inr rfl)⟩
    simp

theorem bulk_fold_spec (env : Env) (videos : List Candidate) :
    ∀ (st : State) (ic fc : ℕ) (ds : List BulkDetail),
      ∃ st' ds',
        videos.foldl (bulkStep env) (st, ic, fc, ds) =
          (st', ic + ds'.countP (fun d => d.status == "indexed"),
           fc + ds'.countP (fun d => d.status == "failed" || d.status == "no_transcript"),
           ds ++ ds') ∧
        ds'.length = videos.length ∧
        ∀ i (hi : i < ds'.length) (hi' : i < videos.length),
          (ds'.get ⟨i, hi⟩).video_id = (videos.get ⟨i, hi'⟩).video_id ∧
          (ds'.get ⟨i, hi⟩).title = (videos.get ⟨i, hi'⟩).title ∧
          ((ds'.get ⟨i, hi⟩).status = "indexed" ∨
           (ds'.get ⟨i, hi⟩).status = "failed" ∨
           (ds'.get ⟨i, hi⟩).status = "no_transcript") := by
  induction videos with
  | nil =>
    intro st ic fc ds
    exact ⟨st, [], by simp, rfl, fun i hi hi' => absurd hi (by simp)⟩
  | cons v vs ih =>
    intro st ic fc ds
    rw [List.foldl_cons]
    obtain ⟨st1, d, hstep, hvid, htitle, hstat⟩ := bulkStep_parts env (st, ic, fc, ds) v
    rw [hstep]
    obtain ⟨st', ds'', hfold, hlen, hidx⟩ :=
      ih st1 (ic + (if d.status == "indexed" then 1 else 0))
        (fc + (if d.status == "failed" || d.status == "no_transcript" then 1 else 0))
        (ds ++ [d])
    refine ⟨st', d :: ds'', ?_, by simp [hlen], ?_⟩
    · rw [hfold]
      simp only [Prod.mk.injEq, List.countP_cons, List.append_assoc,
        List.singleton_append, true_and, and_true]
      omega
    · intro i hi hi'
      cases i with
      | zero =>
        exact ⟨hvid, htitle, hstat⟩
      | succ n =>
        have hn : n < ds''.length := by simpa using hi
        have hn' : n < vs.length := by simpa using hi'
        have := hidx n hn hn'
        simpa using this

/-- C4 (amended): `bulk_index_channel_videos` attempts every discovery
candidate — one item's failure never aborts the batch — and reports one
detail per candidate in the original input order, each with status
`indexed` / `failed` / `no_transcript`, with `total_attempted` equal to
the candidate-list length independent of successes; however the report
carries NO separate no-transcript count: its `failed` count is the number
of `failed` details plus the number of `no_transcript` details. -/
theorem bulk_report_shape (env : Env) (st : State) (ch : String) (mx : ℕ)
    (videos : List Candidate) (h : env.latestVideos ch mx = .ok videos) :
    ∃ ds : List BulkDetail,
      (bulk_index_channel_videos env st ch mx).2 =
        .report "completed" (ds.countP (fun d => d.status == "indexed"))
          (ds.countP (fun d => d.status == "failed" || d.status == "no_transcript"))
          videos.length ds ∧
      ds.length = videos.length ∧
      ∀ i (hi : i < ds.length) (hi' : i < videos.length),
        (ds.get ⟨i, hi⟩).video_id = (videos.get ⟨i, hi'⟩).video_id ∧
        (ds.get ⟨i, hi⟩).title = (videos.get ⟨i, hi'⟩).title ∧
        ((ds.get ⟨i, hi⟩).status = "indexed" ∨
         (ds.get ⟨i, hi⟩).status = "failed" ∨
         (ds.get ⟨i, hi⟩).status = "no_transcript") := by
  obtain ⟨st', ds', hfold, hlen, hidx⟩ := bulk_fold_spec env videos st 0 0 []
  refine ⟨ds', ?_, hlen, hidx⟩
  simp only [bulk_index_channel_videos, h, hfold]
  simp

/-- Counterexample for C4 as stated: on the spec's own scenario
`[A(has transcript), B(no transcript), C(fetch fails)]` the report is
`indexed=1, failed=2, total_attempted=3` with details in order
`[indexed, no_transcript, failed]` — there is no `noTranscriptCount`
field, and the `failed` count (2) is NOT the count of `failed`-status
items (1): the no-transcript item is merged into it. -/
theorem bulk_merged_counts_example :
    (bulk_index_channel_videos exEnv ⟨[], []⟩ "UC" 10).2 =
      .report "completed" 1 2 3
        [⟨"A", "Video A", "indexed", none, some 5⟩,
         ⟨"B", "Video B", "no_transcript", some "No transcripts available", none⟩,
         ⟨"C", "Video C", "failed", some "Failed to get transcript for C: boom", none⟩] ∧
    ¬ (2 = List.countP (fun d => d.status == "failed")
        [(⟨"A", "Video A", "indexed", none, some 5⟩ : BulkDetail),
         ⟨"B", "Video B", "no_transcript", some "No transcripts available", none⟩,
         ⟨"C", "Video C", "failed", some "Failed to get transcript for C: boom", none⟩]) := by
  constructor
  · rfl
  · decide

/-- Witness for C4's amended theorem at the concrete A/B/C scenario. -/
theorem bulk_report_shape_witness :
    ∃ ds : List BulkDetail,
      (bulk_index_channel_videos exEnv ⟨[], []⟩ "UC" 10).2 =
        .report "completed" (ds.countP (fun d => d.status == "indexed"))
          (ds.countP (fun d => d.status == "failed" || d.status == "no_transcript"))
          3 ds ∧
      ds.length = 3 ∧
      ∀ i (hi : i < ds.length)
        (hi' : i < ([⟨"A", "Video A"⟩, ⟨"B", "Video B"⟩, ⟨"C", "Video C"⟩] :
          List Candidate).length),
        (ds.get ⟨i, hi⟩).video_id =
          (([⟨"A", "Video A"⟩, ⟨"B", "Video B"⟩, ⟨"C", "Video C"⟩] :
            List Candidate).get ⟨i, hi'⟩).video_id ∧
        (ds.get ⟨i, hi⟩).title =
          (([⟨"A", "Video A"⟩, ⟨"B", "Video B"⟩, ⟨"C", "Video C"⟩] :
            List Candidate).get ⟨i, hi'⟩).title ∧
        ((ds.get ⟨i, hi⟩).status = "indexed" ∨
         (ds.get ⟨i, hi⟩).status = "failed" ∨
         (ds.get ⟨i, hi⟩).status = "no_transcript") :=
  bulk_report_shape exEnv ⟨[], []⟩ "UC" 10
    [⟨"A", "Video A"⟩, ⟨"B", "Video B"⟩, ⟨"C", "Video C"⟩] rfl
